import Mathlib

/-
Shallow embedding of the particle-visualizer core of this repository
(src/services/geminiService.ts together with the shared type file).
Numbers are modelled as rationals; the platform math library (Math.sin,
Math.cos and the square root inside Math.hypot) is passed in as an oracle
record, and every Math.random() draw of the per-particle frame update is an
explicit named input, so all definitions stay computable and decidable.
-/

namespace Visualizer

/-- A 2-D point in canvas physical-pixel space (type file, `Point`). -/
structure Point where
  x : ℚ
  y : ℚ
deriving DecidableEq

/-- Particle kind tag (type file, `Particle.type`). -/
inductive ParticleType where
  | STRUCTURE : ParticleType
  | STARDUST : ParticleType
deriving DecidableEq

/-- Particle record (type file, `Particle`). -/
structure Particle where
  x : ℚ
  y : ℚ
  vx : ℚ
  vy : ℚ
  size : ℚ
  color : String
  life : ℚ
  maxLife : ℚ
  type : ParticleType
deriving DecidableEq

/-- Visual theme (type file, `VisualTheme`).  The `mode` field is a string:
the TypeScript enum `InteractionMode` is string-valued and the theme arrives
from a loosely validated external source, so unrecognized strings can occur. -/
structure VisualTheme where
  primaryColor : String
  secondaryColor : String
  mode : String
  tension : ℚ
  entropy : ℚ
  geometryScale : ℚ
  description : String
deriving DecidableEq

/-- Oracle for the platform math library: `Math.sin`, `Math.cos` and the
square root inside `Math.hypot` are external real-valued functions, supplied
as parameters of the rational-valued embedding. -/
structure MathOracle where
  sin : ℚ → ℚ
  cos : ℚ → ℚ
  sqrt : ℚ → ℚ

/-- `Math.hypot a b = sqrt (a*a + b*b)`. -/
def hypot (m : MathOracle) (a b : ℚ) : ℚ :=
  m.sqrt (a * a + b * b)

/-- One `Math.random()` draw per call site of the per-particle frame update
(lines 279-347 of the render loop), made explicit as named inputs:
`rIdx` picks the respawn source tip, `rJx`/`rJy` are the respawn position
jitter, `rVx`/`rVy` the respawn velocity seed, `rX`/`rY` the target-less
respawn position, `rEx`/`rEy` the stardust entropy jitter. -/
structure FrameRand where
  rIdx : ℚ
  rJx : ℚ
  rJy : ℚ
  rVx : ℚ
  rVy : ℚ
  rX : ℚ
  rY : ℚ
  rEx : ℚ
  rEy : ℚ

/-- `tips[Math.floor(Math.random() * tips.length)]` (line 283).  For the
intended range `0 ≤ rIdx < 1` the index is in bounds; `getD` supplies an
arbitrary default outside it. -/
def pickSource (tips : List Point) (rIdx : ℚ) : Point :=
  tips.getD (Int.toNat ⌊rIdx * (tips.length : ℚ)⌋) ⟨0, 0⟩

/-- Lines 279-292 of the render loop: decrement `life` by
`deltaTime * 0.05`; on `life ≤ 0` reset `life = maxLife` and relocate the
particle, jittered around a random tip when tips exist (reseeding velocity),
else uniformly in bounds (position only). -/
def respawnStage (p : Particle) (tips : List Point)
    (width height scaleFactor deltaTime : ℚ) (r : FrameRand) : Particle :=
  let life1 := p.life - deltaTime * (5 / 100)
  if life1 ≤ 0 then
    if 0 < tips.length then
      let source := pickSource tips r.rIdx
      let sv : ℚ := if p.type = ParticleType.STRUCTURE then 2 else 1 / 2
      { p with
        life := p.maxLife
        x := source.x + (r.rJx - 1 / 2) * 50 * scaleFactor
        y := source.y + (r.rJy - 1 / 2) * 50 * scaleFactor
        vx := (r.rVx - 1 / 2) * sv * scaleFactor
        vy := (r.rVy - 1 / 2) * sv * scaleFactor }
    else
      { p with
        life := p.maxLife
        x := r.rX * width
        y := r.rY * height }
  else
    { p with life := life1 }

/-- `Math.round x = Math.floor (x + 0.5)` on finite inputs (used by the
CRYSTALLIZE branch). -/
def jsRound (q : ℚ) : ℤ :=
  ⌊q + 1 / 2⌋

/-- One iteration of the nearest-tip scan (lines 299-302): a tip strictly
closer than the current best replaces it. -/
def scanStep (m : MathOracle) (p : Particle) (acc : ℚ × Point) (t : Point) : ℚ × Point :=
  let d := hypot m (t.x - p.x) (t.y - p.y)
  if d < acc.1 then (d, t) else acc

/-- The nearest-tip scan of lines 297-302: `closestDist` starts at the
sentinel `99999` and `target` at `tips[0]`. -/
def nearestScan (m : MathOracle) (p : Particle) (tips : List Point) : ℚ × Point :=
  tips.foldl (scanStep m p) (99999, tips.headD ⟨0, 0⟩)

/-- The distance the scan actually reports: the Euclidean distance to the
nearest tip, capped at the sentinel `99999`. -/
def cappedNearestDist (m : MathOracle) (p : Particle) (tips : List Point) : ℚ :=
  (nearestScan m p tips).1

/-- `force = 1 - closestDist / interactionDistance` (line 308). -/
def forceFactor (closestDist interactionDistance : ℚ) : ℚ :=
  1 - closestDist / interactionDistance

/-- Lines 294-347 of the render loop: per-particle force for one frame.
Rational division is total (`q / 0 = 0`), so the embedding agrees with the
source wherever the source itself is finite (the claims never instantiate a
zero divisor). -/
def computeForce (m : MathOracle) (p : Particle) (tips : List Point)
    (theme : VisualTheme) (scaleFactor time : ℚ) (r : FrameRand) : ℚ × ℚ :=
  let geometryDistance := theme.geometryScale * scaleFactor
  let interactionDistance := 300 * scaleFactor
  if 0 < tips.length then
    let scan := nearestScan m p tips
    let closestDist := scan.1
    let target := scan.2
    let dx := target.x - p.x
    let dy := target.y - p.y
    if closestDist < interactionDistance then
      let force := forceFactor closestDist interactionDistance
      if p.type = ParticleType.STRUCTURE then
        if theme.mode = "WEAVE" then
          (dx * (2 / 100) * theme.tension * force - dy * (5 / 100) * force,
           dy * (2 / 100) * theme.tension * force + dx * (5 / 100) * force)
        else if theme.mode = "CRYSTALLIZE" then
          let snapSize := geometryDistance
          let snapX := (jsRound (p.x / snapSize) : ℚ) * snapSize
          let snapY := (jsRound (p.y / snapSize) : ℚ) * snapSize
          ((snapX - p.x) * (5 / 100) + dx * (5 / 1000),
           (snapY - p.y) * (5 / 100) + dy * (5 / 1000))
        else if theme.mode = "FRAGMENT" then
          if closestDist < 200 * scaleFactor then
            (-(dx * (1 / 10) * force), -(dy * (1 / 10) * force))
          else
            (0, 0)
        else if theme.mode = "VOID" then
          (dx * (8 / 100) * force, dy * (8 / 100) * force)
        else
          (m.sin (time * (1 / 100) + p.y * (1 / 10)) * (1 / 2) * scaleFactor,
           m.cos (time * (1 / 100) + p.x * (1 / 10)) * (1 / 2) * scaleFactor)
      else
        let jx := (r.rEx - 1 / 2) * theme.entropy * scaleFactor
        let jy := (r.rEy - 1 / 2) * theme.entropy * scaleFactor
        if closestDist < 300 * scaleFactor then
          (jx + dx * (2 / 1000) * force, jy + dy * (2 / 1000) * force)
        else
          (jx, jy)
    else
      (0, 0)
  else
    (m.sin (p.y * (1 / 100) + time * (5 / 10000)) * (1 / 100) * scaleFactor, 0)

/-- Lines 349-355: accumulate the force into the velocity, damp by 0.92
(STRUCTURE) or 0.98 (STARDUST), and integrate the position. -/
def integrateStage (p : Particle) (f : ℚ × ℚ) : Particle :=
  let damp : ℚ := if p.type = ParticleType.STRUCTURE then 92 / 100 else 98 / 100
  let vx := (p.vx + f.1) * damp
  let vy := (p.vy + f.2) * damp
  { p with vx := vx, vy := vy, x := p.x + vx, y := p.y + vy }

/-- Lines 357-361, one coordinate: `if (v < 0) v = bound; if (v > bound) v = 0`. -/
def wrapCoord (v bound : ℚ) : ℚ :=
  let v1 := if v < 0 then bound else v
  if bound < v1 then 0 else v1

/-- Lines 357-361: wrap both coordinates. -/
def wrapStage (p : Particle) (width height : ℚ) : Particle :=
  { p with x := wrapCoord p.x width, y := wrapCoord p.y height }

/-- The per-particle state just before the wrap: respawn, force and
integration stages composed. -/
def preWrapParticle (m : MathOracle) (p : Particle) (tips : List Point)
    (theme : VisualTheme) (width height scaleFactor time deltaTime : ℚ)
    (r : FrameRand) : Particle :=
  let p1 := respawnStage p tips width height scaleFactor deltaTime r
  integrateStage p1 (computeForce m p1 tips theme scaleFactor time r)

/-- One full per-particle simulation step (lines 279-361). -/
def updateParticle (m : MathOracle) (p : Particle) (tips : List Point)
    (theme : VisualTheme) (width height scaleFactor time deltaTime : ℚ)
    (r : FrameRand) : Particle :=
  wrapStage (preWrapParticle m p tips theme width height scaleFactor time deltaTime r)
    width height

/-- Everything one frame feeds into a single particle update. -/
structure FrameInput where
  oracle : MathOracle
  tips : List Point
  theme : VisualTheme
  width : ℚ
  height : ℚ
  scaleFactor : ℚ
  time : ℚ
  deltaTime : ℚ
  rand : FrameRand

/-- Iterate the per-particle update over a list of frames. -/
def runFrames (p : Particle) (frames : List FrameInput) : Particle :=
  frames.foldl
    (fun q i =>
      updateParticle i.oracle q i.tips i.theme i.width i.height i.scaleFactor
        i.time i.deltaTime i.rand)
    p

/-- The fill color chosen for a particle at draw time (lines 363-364): the
theme's primary color for STRUCTURE, secondary for STARDUST; the particle's
stored `color` field is never consulted. -/
def baseColor (p : Particle) (theme : VisualTheme) : String :=
  if p.type = ParticleType.STRUCTURE then theme.primaryColor else theme.secondaryColor

/-- `s.slice a b` of JavaScript, specialised to the literal nonnegative
index pairs used by `hexToRgba` (1-3, 3-5, 5-7). -/
def jsSlice (s : String) (a b : Nat) : String :=
  String.mk ((s.data.drop a).take (b - a))

/-- Value of one hexadecimal digit character, by code point (0-9, a-f, A-F). -/
def hexDigitVal (c : Char) : Option Nat :=
  let n := c.toNat
  if 48 ≤ n ∧ n ≤ 57 then some (n - 48)
  else if 97 ≤ n ∧ n ≤ 102 then some (n - 87)
  else if 65 ≤ n ∧ n ≤ 70 then some (n - 55)
  else none

/-- Longest leading run of hexadecimal digits. -/
def takeHexDigits : List Char → List Nat
  | [] => []
  | c :: rest =>
    match hexDigitVal c with
    | some v => v :: takeHexDigits rest
    | none => []

/-- Base-16 value of a digit list, most significant first. -/
def hexListVal (ds : List Nat) : Nat :=
  ds.foldl (fun a d => a * 16 + d) 0

/-- JavaScript whitespace characters skipped by `parseInt` (space, tab,
newline, carriage return, vertical tab, form feed). -/
def jsIsWhitespace (c : Char) : Bool :=
  c.toNat = 32 ∨ c.toNat = 9 ∨ c.toNat = 10 ∨ c.toNat = 13 ∨ c.toNat = 11 ∨ c.toNat = 12

/-- `parseInt(s, 16)` of JavaScript: skip leading whitespace, an optional
sign (code points 43 and 45), an optional 0x/0X marker, then read the
longest run of hexadecimal digits; `none` models the NaN result when that
run is empty. -/
def jsParseIntHex (s : String) : Option ℤ :=
  let cs := s.data.dropWhile (fun c => jsIsWhitespace c)
  let signed : ℤ × List Char :=
    match cs with
    | c :: rest =>
      if c.toNat = 45 then (-1, rest)
      else if c.toNat = 43 then (1, rest)
      else (1, cs)
    | [] => (1, [])
  let cs2 : List Char :=
    match signed.2 with
    | a :: b :: rest =>
      if a.toNat = 48 ∧ (b.toNat = 120 ∨ b.toNat = 88) then rest else signed.2
    | _ => signed.2
  let ds := takeHexDigits cs2
  if ds = [] then none else some (signed.1 * (hexListVal ds : ℤ))

/-- The result of `hexToRgba`, represented by its channel values instead of
the formatted `rgba(r, g, b, a)` string; `none` stands for a NaN channel. -/
structure Rgba where
  r : Option ℤ
  g : Option ℤ
  b : Option ℤ
  a : ℚ
deriving DecidableEq

/-- Lines 189-194 of the render loop: extract the three channels by
two-hex-digit slices and pass the alpha through. -/
def hexToRgba (hex : String) (alpha : ℚ) : Rgba :=
  { r := jsParseIntHex (jsSlice hex 1 3)
    g := jsParseIntHex (jsSlice hex 3 5)
    b := jsParseIntHex (jsSlice hex 5 7)
    a := alpha }

/-- Lines 232-233 of the render loop, the per-frame theme request gate: a
request is issued exactly when at least one hand is present and more than
4000 ms have passed since `lastThemeUpdate`, and in that case
`lastThemeUpdate` is set to the current time at issue time, before any
response can arrive.  Returns (request issued this frame, new timer value). -/
def themeGate (handCount : ℕ) (time lastThemeUpdate : ℚ) : Bool × ℚ :=
  if 0 < handCount ∧ 4000 < time - lastThemeUpdate then (true, time)
  else (false, lastThemeUpdate)

/-- A JavaScript value as produced by `JSON.parse`. -/
inductive JsValue where
  | nullV : JsValue
  | boolV : Bool → JsValue
  | numV : ℚ → JsValue
  | strV : String → JsValue
  | objV : List (String × JsValue) → JsValue
  | arrV : List JsValue → JsValue

/-- JavaScript truthiness of a parsed value (`if (newTheme)` on line 239).
Rationals have no NaN, so `numV` is falsy exactly on zero. -/
def jsTruthy : JsValue → Bool
  | JsValue.nullV => false
  | JsValue.boolV b => b
  | JsValue.numV q => decide (q ≠ 0)
  | JsValue.strV s => decide (s ≠ "")
  | JsValue.objV _ => true
  | JsValue.arrV _ => true

/-- Observable outcome of one theme request, at the boundary modelled by the
spec: the call threw (network error), the response carried no text, the text
was not parseable JSON (`JSON.parse` threw), or it parsed to a value. -/
inductive ApiResponse where
  | networkError : ApiResponse
  | noText : ApiResponse
  | unparseableText : ApiResponse
  | parsedText : JsValue → ApiResponse

/-- Lines 32-51 of `generateThemeFromGesture`: any thrown error is caught
and becomes `null`, a missing or empty response text becomes `null`, and
otherwise the `JSON.parse` result is returned unvalidated (the `as
VisualTheme` cast checks nothing). -/
def generateThemeFromGesture : ApiResponse → Option JsValue
  | ApiResponse.networkError => none
  | ApiResponse.noText => none
  | ApiResponse.unparseableText => none
  | ApiResponse.parsedText v => some v

/-- Lines 238-243, the response callback: `null` keeps the current theme,
and a returned value replaces it exactly when it is truthy. -/
def applyThemeResponse (current : JsValue) (result : Option JsValue) : JsValue :=
  match result with
  | none => current
  | some v => if jsTruthy v then v else current

/-- DEFAULT_THEME of the visualizer component, as the JavaScript object the
theme state holds before any request succeeds. -/
def defaultThemeJs : JsValue :=
  JsValue.objV
    [("primaryColor", JsValue.strV "#D4AF37"),
     ("secondaryColor", JsValue.strV "#1A237E"),
     ("mode", JsValue.strV "WEAVE"),
     ("tension", JsValue.numV 1),
     ("entropy", JsValue.numV (2 / 10)),
     ("geometryScale", JsValue.numV 100),
     ("description", JsValue.strV "Awaiting Input")]

/-- Concrete oracle whose trigonometric functions vanish; on the inputs the
concrete theorems below evaluate it at, the arguments are 0, where the real
Math.sin and Math.cos also return 0. -/
def zeroOracle : MathOracle :=
  ⟨fun _ => 0, fun _ => 0, fun _ => 0⟩

/-- Concrete random draw bundle used by the concrete theorems below. -/
def randHalf : FrameRand :=
  ⟨0, 0, 0, 9 / 10, 9 / 10, 1 / 2, 1 / 2, 0, 0⟩

/-- Concrete theme with the default WEAVE mode. -/
def weaveTheme : VisualTheme :=
  ⟨"#D4AF37", "#1A237E", "WEAVE", 1, 2 / 10, 100, "Awaiting Input"⟩

/-- Concrete theme in VOID mode. -/
def voidTheme : VisualTheme :=
  ⟨"#D4AF37", "#1A237E", "VOID", 1, 2 / 10, 100, ""⟩

/-- Concrete theme whose mode string is outside the enumeration. -/
def glitchTheme : VisualTheme :=
  ⟨"#D4AF37", "#1A237E", "GLITCH", 1, 2 / 10, 100, ""⟩

/-- Concrete oracle agreeing with the real square root on the one argument
the distance-sentinel counterexample evaluates it at:
sqrt (400000 * 400000) = 400000. -/
def farOracle : MathOracle :=
  ⟨fun _ => 0, fun _ => 0, fun q => if q = 160000000000 then 400000 else 0⟩

/-- Concrete oracle for the fallback-mode witness: sqrt 9 = 3 as in the real
square root, and arbitrary constant sine and cosine. -/
def resonOracle : MathOracle :=
  ⟨fun _ => 7, fun _ => 11, fun q => if q = 9 then 3 else 0⟩

end Visualizer

namespace Visualizer

/-- The two particle kind tags are distinct (used to evaluate the
type-dependent branches at concrete inputs). -/
theorem stardust_ne_structure : ParticleType.STARDUST ≠ ParticleType.STRUCTURE :=
  fun h => ParticleType.noConfusion h

/-- A coordinate that went negative is set to exactly the far bound
(line 358 and line 360). -/
theorem wrapCoord_of_neg (v bound : ℚ) (hv : v < 0) : wrapCoord v bound = bound := by
  simp only [wrapCoord]
  rw [if_pos hv, if_neg (lt_irrefl bound)]

/-- A coordinate that went past the bound is set to exactly 0
(line 359 and line 361). -/
theorem wrapCoord_of_gt (v bound : ℚ) (hb : 0 ≤ bound) (hv : bound < v) :
    wrapCoord v bound = 0 := by
  have hv0 : ¬ v < 0 := not_lt.mpr (le_trans hb (le_of_lt hv))
  simp only [wrapCoord]
  rw [if_neg hv0, if_pos hv]

/-- After the wrap a coordinate lies in the closed interval [0, bound]. -/
theorem wrapCoord_mem (v bound : ℚ) (hb : 0 ≤ bound) :
    0 ≤ wrapCoord v bound ∧ wrapCoord v bound ≤ bound := by
  simp only [wrapCoord]
  by_cases h1 : v < 0
  · rw [if_pos h1, if_neg (lt_irrefl bound)]
    exact ⟨hb, le_rfl⟩
  · rw [if_neg h1]
    by_cases h2 : bound < v
    · rw [if_pos h2]
      exact ⟨le_rfl, hb⟩
    · rw [if_neg h2]
      exact ⟨not_lt.mp h1, not_lt.mp h2⟩

/-- The final x of a step is the wrapped pre-wrap x. -/
theorem updateParticle_x (m : MathOracle) (p : Particle) (tips : List Point)
    (theme : VisualTheme) (width height scaleFactor time deltaTime : ℚ) (r : FrameRand) :
    (updateParticle m p tips theme width height scaleFactor time deltaTime r).x
      = wrapCoord (preWrapParticle m p tips theme width height scaleFactor time deltaTime r).x
          width := rfl

/-- The final y of a step is the wrapped pre-wrap y. -/
theorem updateParticle_y (m : MathOracle) (p : Particle) (tips : List Point)
    (theme : VisualTheme) (width height scaleFactor time deltaTime : ℚ) (r : FrameRand) :
    (updateParticle m p tips theme width height scaleFactor time deltaTime r).y
      = wrapCoord (preWrapParticle m p tips theme width height scaleFactor time deltaTime r).y
          height := rfl

/-- Life after the respawn stage, in closed form. -/
theorem respawnStage_life (p : Particle) (tips : List Point)
    (width height scaleFactor deltaTime : ℚ) (r : FrameRand) :
    (respawnStage p tips width height scaleFactor deltaTime r).life
      = if p.life - deltaTime * (5 / 100) ≤ 0 then p.maxLife
        else p.life - deltaTime * (5 / 100) := by
  simp only [respawnStage]
  split_ifs <;> rfl

/-- The respawn stage never changes maxLife. -/
theorem respawnStage_maxLife (p : Particle) (tips : List Point)
    (width height scaleFactor deltaTime : ℚ) (r : FrameRand) :
    (respawnStage p tips width height scaleFactor deltaTime r).maxLife = p.maxLife := by
  simp only [respawnStage]
  split_ifs <;> rfl

/-- The respawn stage never changes size. -/
theorem respawnStage_size (p : Particle) (tips : List Point)
    (width height scaleFactor deltaTime : ℚ) (r : FrameRand) :
    (respawnStage p tips width height scaleFactor deltaTime r).size = p.size := by
  simp only [respawnStage]
  split_ifs <;> rfl

/-- The respawn stage never changes the color field. -/
theorem respawnStage_color (p : Particle) (tips : List Point)
    (width height scaleFactor deltaTime : ℚ) (r : FrameRand) :
    (respawnStage p tips width height scaleFactor deltaTime r).color = p.color := by
  simp only [respawnStage]
  split_ifs <;> rfl

/-- The respawn stage never changes the type tag. -/
theorem respawnStage_type (p : Particle) (tips : List Point)
    (width height scaleFactor deltaTime : ℚ) (r : FrameRand) :
    (respawnStage p tips width height scaleFactor deltaTime r).type = p.type := by
  simp only [respawnStage]
  split_ifs <;> rfl

/-- The force, integration and wrap stages do not touch life. -/
theorem updateParticle_life (m : MathOracle) (p : Particle) (tips : List Point)
    (theme : VisualTheme) (width height scaleFactor time deltaTime : ℚ) (r : FrameRand) :
    (updateParticle m p tips theme width height scaleFactor time deltaTime r).life
      = (respawnStage p tips width height scaleFactor deltaTime r).life := rfl

/-- The force, integration and wrap stages do not touch maxLife. -/
theorem updateParticle_maxLife (m : MathOracle) (p : Particle) (tips : List Point)
    (theme : VisualTheme) (width height scaleFactor time deltaTime : ℚ) (r : FrameRand) :
    (updateParticle m p tips theme width height scaleFactor time deltaTime r).maxLife
      = (respawnStage p tips width height scaleFactor deltaTime r).maxLife := rfl

/-- One full step keeps life in (0, maxLife] and maxLife unchanged, given a
nonnegative frame delta and a state below its cap. -/
theorem update_life_bounds (m : MathOracle) (p : Particle) (tips : List Point)
    (theme : VisualTheme) (width height scaleFactor time deltaTime : ℚ) (r : FrameRand)
    (hmax : 0 < p.maxLife) (hlife : p.life ≤ p.maxLife) (hdt : 0 ≤ deltaTime) :
    0 < (updateParticle m p tips theme width height scaleFactor time deltaTime r).life ∧
    (updateParticle m p tips theme width height scaleFactor time deltaTime r).life
      ≤ p.maxLife ∧
    (updateParticle m p tips theme width height scaleFactor time deltaTime r).maxLife
      = p.maxLife := by
  have hdt5 : 0 ≤ deltaTime * (5 / 100) := mul_nonneg hdt (by norm_num)
  have hM : (updateParticle m p tips theme width height scaleFactor time deltaTime r).maxLife
      = p.maxLife := by
    rw [updateParticle_maxLife, respawnStage_maxLife]
  have hL : (updateParticle m p tips theme width height scaleFactor time deltaTime r).life
      = if p.life - deltaTime * (5 / 100) ≤ 0 then p.maxLife
        else p.life - deltaTime * (5 / 100) := by
    rw [updateParticle_life, respawnStage_life]
  rw [hL, hM]
  split_ifs with h
  · exact ⟨hmax, le_rfl, rfl⟩
  · exact ⟨not_le.mp h, by linarith, rfl⟩

/-- Iterating frames preserves the strict life invariant. -/
theorem runFrames_strong (frames : List FrameInput) :
    ∀ p : Particle, (∀ i ∈ frames, 0 ≤ i.deltaTime) →
      0 < p.life → p.life ≤ p.maxLife → 0 < p.maxLife →
      0 < (runFrames p frames).life ∧
      (runFrames p frames).life ≤ (runFrames p frames).maxLife ∧
      0 < (runFrames p frames).maxLife := by
  induction frames with
  | nil =>
    intro p _ h1 h2 h3
    exact ⟨h1, h2, h3⟩
  | cons i tl ih =>
    intro p hdt h1 h2 h3
    have hstep := update_life_bounds i.oracle p i.tips i.theme i.width i.height
      i.scaleFactor i.time i.deltaTime i.rand h3 h2 (hdt i (List.mem_cons_self i tl))
    have hrw : runFrames p (i :: tl)
        = runFrames (updateParticle i.oracle p i.tips i.theme i.width i.height
            i.scaleFactor i.time i.deltaTime i.rand) tl := rfl
    rw [hrw]
    refine ih _ (fun j hj => hdt j (List.mem_cons_of_mem i hj)) hstep.1 ?_ ?_
    · rw [hstep.2.2]
      exact hstep.2.1
    · rw [hstep.2.2]
      exact h3

/-- C2: for every particle, after any positive number of simulation steps
with nonnegative frame deltas, starting from a state whose life does not
exceed its positive cap, 0 < life ≤ maxLife holds: life is never negative
and never exceeds maxLife after a reset. -/
theorem claim_C2_life_invariant (p : Particle) (frames : List FrameInput)
    (hne : frames ≠ []) (hmax : 0 < p.maxLife) (hstart : p.life ≤ p.maxLife)
    (hdt : ∀ i ∈ frames, 0 ≤ i.deltaTime) :
    0 < (runFrames p frames).life ∧
    (runFrames p frames).life ≤ (runFrames p frames).maxLife := by
  cases frames with
  | nil => exact absurd rfl hne
  | cons i tl =>
    have hstep := update_life_bounds i.oracle p i.tips i.theme i.width i.height
      i.scaleFactor i.time i.deltaTime i.rand hmax hstart (hdt i (List.mem_cons_self i tl))
    have hrw : runFrames p (i :: tl)
        = runFrames (updateParticle i.oracle p i.tips i.theme i.width i.height
            i.scaleFactor i.time i.deltaTime i.rand) tl := rfl
    rw [hrw]
    have h := runFrames_strong tl _ (fun j hj => hdt j (List.mem_cons_of_mem i hj))
      hstep.1 (by rw [hstep.2.2]; exact hstep.2.1) (by rw [hstep.2.2]; exact hmax)
    exact ⟨h.1, h.2.1⟩

/-- Witness for C2 at a concrete one-frame run. -/
theorem claim_C2_life_invariant_witness :
    0 < (runFrames ⟨0, 0, -10, 0, 1, "", 50, 100, ParticleType.STARDUST⟩
          [⟨zeroOracle, [], weaveTheme, 100, 100, 1, 0, 16, randHalf⟩]).life ∧
    (runFrames ⟨0, 0, -10, 0, 1, "", 50, 100, ParticleType.STARDUST⟩
          [⟨zeroOracle, [], weaveTheme, 100, 100, 1, 0, 16, randHalf⟩]).life
      ≤ (runFrames ⟨0, 0, -10, 0, 1, "", 50, 100, ParticleType.STARDUST⟩
          [⟨zeroOracle, [], weaveTheme, 100, 100, 1, 0, 16, randHalf⟩]).maxLife :=
  claim_C2_life_invariant _ _ (by simp) (by norm_num) (by norm_num)
    (by
      intro i hi
      rw [List.mem_singleton] at hi
      rw [hi]
      norm_num)

/-- C1 counterexample: a stardust particle at the origin with velocity -10
and no hands ends the step at x = width exactly (the wrap sets a negative
coordinate to the far bound), so its position is NOT in the half-open box
[0, width) — refuting the claim that positions after wrap stay inside
[0, width) × [0, height).  With p.y = 0 and time = 0 the ambient-drift sine
is evaluated at 0, where the real Math.sin also returns 0, so `zeroOracle`
agrees with the source here. -/
theorem claim_C1_counterexample :
    (updateParticle zeroOracle ⟨0, 0, -10, 0, 1, "", 100, 100, ParticleType.STARDUST⟩
        [] weaveTheme 100 100 1 0 0 randHalf).x = 100 ∧
    ¬ (updateParticle zeroOracle ⟨0, 0, -10, 0, 1, "", 100, 100, ParticleType.STARDUST⟩
        [] weaveTheme 100 100 1 0 0 randHalf).x < 100 := by
  norm_num [updateParticle, preWrapParticle, respawnStage, computeForce, integrateStage,
    wrapStage, wrapCoord, nearestScan, scanStep, zeroOracle, weaveTheme, randHalf,
    stardust_ne_structure]

/-- C1 amended: after the boundary-wrap stage the particle's position lies
within the CLOSED box [0, width] × [0, height] (the boundary itself is
attainable), and any coordinate crossing a boundary reappears at the
opposite edge (not reflected, not clamped to the edge it crossed): a
coordinate that went below 0 is set to the far bound and one that went past
the far bound is set to 0. -/
theorem claim_C1_wrap_box (m : MathOracle) (p : Particle) (tips : List Point)
    (theme : VisualTheme) (width height scaleFactor time deltaTime : ℚ) (r : FrameRand)
    (hw : 0 ≤ width) (hh : 0 ≤ height) :
    (updateParticle m p tips theme width height scaleFactor time deltaTime r).x
        ∈ Set.Icc 0 width ∧
    (updateParticle m p tips theme width height scaleFactor time deltaTime r).y
        ∈ Set.Icc 0 height ∧
    ((preWrapParticle m p tips theme width height scaleFactor time deltaTime r).x < 0 →
      (updateParticle m p tips theme width height scaleFactor time deltaTime r).x = width) ∧
    (width < (preWrapParticle m p tips theme width height scaleFactor time deltaTime r).x →
      (updateParticle m p tips theme width height scaleFactor time deltaTime r).x = 0) ∧
    ((preWrapParticle m p tips theme width height scaleFactor time deltaTime r).y < 0 →
      (updateParticle m p tips theme width height scaleFactor time deltaTime r).y = height) ∧
    (height < (preWrapParticle m p tips theme width height scaleFactor time deltaTime r).y →
      (updateParticle m p tips theme width height scaleFactor time deltaTime r).y = 0) := by
  rw [updateParticle_x, updateParticle_y]
  refine ⟨?_, ?_, ?_, ?_, ?_, ?_⟩
  · exact Set.mem_Icc.mpr (wrapCoord_mem _ width hw)
  · exact Set.mem_Icc.mpr (wrapCoord_mem _ height hh)
  · exact fun h => wrapCoord_of_neg _ width h
  · exact fun h => wrapCoord_of_gt _ width hw h
  · exact fun h => wrapCoord_of_neg _ height h
  · exact fun h => wrapCoord_of_gt _ height hh h

/-- Witness for the amended C1 at a concrete step. -/
theorem claim_C1_wrap_box_witness :
    (updateParticle zeroOracle ⟨0, 0, -10, 0, 1, "", 100, 100, ParticleType.STARDUST⟩
        [] weaveTheme 100 100 1 0 0 randHalf).x ∈ Set.Icc (0 : ℚ) 100 :=
  (claim_C1_wrap_box zeroOracle ⟨0, 0, -10, 0, 1, "", 100, 100, ParticleType.STARDUST⟩
    [] weaveTheme 100 100 1 0 0 randHalf (by norm_num) (by norm_num)).1

/-- C9: after every per-frame simulation step the position lies in the
closed box [0, width] × [0, height]; the wrap assigns a coordinate that
drops below 0 to exactly width (resp. height) and one that exceeds width
(resp. height) to exactly 0, however far the integration overshot, so
boundary values are attainable but never exceeded. -/
theorem claim_C9_closed_box (m : MathOracle) (p : Particle) (tips : List Point)
    (theme : VisualTheme) (width height scaleFactor time deltaTime : ℚ) (r : FrameRand)
    (hw : 0 ≤ width) (hh : 0 ≤ height) :
    (0 ≤ (updateParticle m p tips theme width height scaleFactor time deltaTime r).x ∧
      (updateParticle m p tips theme width height scaleFactor time deltaTime r).x ≤ width) ∧
    (0 ≤ (updateParticle m p tips theme width height scaleFactor time deltaTime r).y ∧
      (updateParticle m p tips theme width height scaleFactor time deltaTime r).y ≤ height) ∧
    ((preWrapParticle m p tips theme width height scaleFactor time deltaTime r).x < 0 →
      (updateParticle m p tips theme width height scaleFactor time deltaTime r).x = width) ∧
    (width < (preWrapParticle m p tips theme width height scaleFactor time deltaTime r).x →
      (updateParticle m p tips theme width height scaleFactor time deltaTime r).x = 0) ∧
    ((preWrapParticle m p tips theme width height scaleFactor time deltaTime r).y < 0 →
      (updateParticle m p tips theme width height scaleFactor time deltaTime r).y = height) ∧
    (height < (preWrapParticle m p tips theme width height scaleFactor time deltaTime r).y →
      (updateParticle m p tips theme width height scaleFactor time deltaTime r).y = 0) := by
  rw [updateParticle_x, updateParticle_y]
  exact ⟨wrapCoord_mem _ width hw, wrapCoord_mem _ height hh,
    fun h => wrapCoord_of_neg _ width h,
    fun h => wrapCoord_of_gt _ width hw h,
    fun h => wrapCoord_of_neg _ height h,
    fun h => wrapCoord_of_gt _ height hh h⟩

/-- Witness for C9 at a concrete step: the overshooting particle lands
exactly on the boundary value width = 100. -/
theorem claim_C9_closed_box_witness :
    0 ≤ (updateParticle zeroOracle ⟨0, 50, -10, 0, 1, "", 100, 100, ParticleType.STARDUST⟩
        [] weaveTheme 100 100 1 0 0 randHalf).x ∧
    (updateParticle zeroOracle ⟨0, 50, -10, 0, 1, "", 100, 100, ParticleType.STARDUST⟩
        [] weaveTheme 100 100 1 0 0 randHalf).x ≤ 100 :=
  (claim_C9_closed_box zeroOracle ⟨0, 50, -10, 0, 1, "", 100, 100, ParticleType.STARDUST⟩
    [] weaveTheme 100 100 1 0 0 randHalf (by norm_num) (by norm_num)).1

/-- For a unit-interval draw, the respawn source is one of the tips. -/
theorem pickSource_mem (tips : List Point) (rIdx : ℚ) (hne : tips ≠ [])
    (h0 : 0 ≤ rIdx) (h1 : rIdx < 1) : pickSource tips rIdx ∈ tips := by
  have hlen : 0 < tips.length := List.length_pos.mpr hne
  have hlenq : (0 : ℚ) < (tips.length : ℚ) := by exact_mod_cast hlen
  have hq : rIdx * (tips.length : ℚ) < (tips.length : ℚ) := by
    calc rIdx * (tips.length : ℚ) < 1 * (tips.length : ℚ) :=
          mul_lt_mul_of_pos_right h1 hlenq
      _ = (tips.length : ℚ) := one_mul _
  have hfl : ⌊rIdx * (tips.length : ℚ)⌋ < (tips.length : ℤ) := by
    rw [Int.floor_lt]
    exact_mod_cast hq
  have hnn : 0 ≤ ⌊rIdx * (tips.length : ℚ)⌋ :=
    Int.floor_nonneg.mpr (mul_nonneg h0 (le_of_lt hlenq))
  have hidx : (⌊rIdx * (tips.length : ℚ)⌋).toNat < tips.length := by omega
  rw [pickSource, List.getD_eq_getElem tips ⟨0, 0⟩ hidx]
  exact List.getElem_mem hidx

/-- C3 counterexample: a stardust particle with life 1 and velocity 7 hits a
frame with deltaTime 100 and no targets; the respawn fires (life is reset to
maxLife = 100), yet vx stays the prior 7, which differs from the value any
reseed draw would produce here ((rVx - 0.5) * 0.5 * scale = 1/5).  This
refutes the claim that on a target-less respawn the velocity is reseeded. -/
theorem claim_C3_counterexample :
    (respawnStage ⟨5, 5, 7, 0, 1, "", 1, 100, ParticleType.STARDUST⟩
        [] 100 100 1 100 randHalf).vx = 7 ∧
    (respawnStage ⟨5, 5, 7, 0, 1, "", 1, 100, ParticleType.STARDUST⟩
        [] 100 100 1 100 randHalf).life = 100 ∧
    (randHalf.rVx - 1 / 2) * (1 / 2) * 1 ≠ (7 : ℚ) := by
  refine ⟨?_, ?_, ?_⟩
  · norm_num [respawnStage, randHalf]
  · norm_num [respawnStage, randHalf]
  · norm_num [randHalf]

/-- C3 amended: each step decrements life by deltaTime × 0.05; when the
decremented life falls to ≤ 0 the particle is respawned with life reset to
maxLife; with targets present it is relocated to a randomly chosen target
point (a member of the target list for a unit-interval draw) jittered by
(draw - 0.5) × 50 × scale per axis, and its velocity is reseeded with the
type-dependent speed factor; with no targets it is relocated to a
uniform-random point in bounds and its velocity is left untouched (velocity
is reseeded only in the target case). -/
theorem claim_C3_respawn (p : Particle) (tips : List Point)
    (width height scaleFactor deltaTime : ℚ) (r : FrameRand) :
    (0 < p.life - deltaTime * (5 / 100) →
      respawnStage p tips width height scaleFactor deltaTime r
        = { p with life := p.life - deltaTime * (5 / 100) }) ∧
    (p.life - deltaTime * (5 / 100) ≤ 0 → 0 < tips.length →
      respawnStage p tips width height scaleFactor deltaTime r
        = { p with
            life := p.maxLife
            x := (pickSource tips r.rIdx).x + (r.rJx - 1 / 2) * 50 * scaleFactor
            y := (pickSource tips r.rIdx).y + (r.rJy - 1 / 2) * 50 * scaleFactor
            vx := (r.rVx - 1 / 2)
                * (if p.type = ParticleType.STRUCTURE then 2 else 1 / 2) * scaleFactor
            vy := (r.rVy - 1 / 2)
                * (if p.type = ParticleType.STRUCTURE then 2 else 1 / 2) * scaleFactor }) ∧
    (p.life - deltaTime * (5 / 100) ≤ 0 → tips.length = 0 →
      respawnStage p tips width height scaleFactor deltaTime r
        = { p with life := p.maxLife, x := r.rX * width, y := r.rY * height }) ∧
    (tips ≠ [] → 0 ≤ r.rIdx → r.rIdx < 1 → pickSource tips r.rIdx ∈ tips) := by
  refine ⟨?_, ?_, ?_, fun hne h0 h1 => pickSource_mem tips r.rIdx hne h0 h1⟩
  · intro h
    simp only [respawnStage]
    rw [if_neg (not_le.mpr h)]
  · intro h htips
    simp only [respawnStage]
    rw [if_pos h, if_pos htips]
  · intro h htips
    simp only [respawnStage]
    rw [if_pos h, if_neg (by omega)]

/-- Witness for the amended C3: a respawn with one target at (10, 20)
relocates to the jittered target and reseeds the velocity. -/
theorem claim_C3_respawn_witness :
    respawnStage ⟨0, 0, 0, 0, 1, "", 1, 100, ParticleType.STRUCTURE⟩
        [⟨10, 20⟩] 100 100 1 100 randHalf
      = ⟨-15, -5, 4 / 5, 4 / 5, 1, "", 100, 100, ParticleType.STRUCTURE⟩ ∧
    pickSource [⟨10, 20⟩] randHalf.rIdx ∈ [(⟨10, 20⟩ : Point)] := by
  have h := claim_C3_respawn ⟨0, 0, 0, 0, 1, "", 1, 100, ParticleType.STRUCTURE⟩
    [⟨10, 20⟩] 100 100 1 100 randHalf
  refine ⟨(h.2.1 (by norm_num) (by norm_num)).trans ?_,
    h.2.2.2 (by simp) (by norm_num [randHalf]) (by norm_num [randHalf])⟩
  norm_num [pickSource, randHalf]

/-- C10: one per-frame update (respawn included) mutates only x, y, vx, vy
and life: size, maxLife, type and color are unchanged by the step, and the
drawn color depends only on the theme and the particle's type, never on the
stored color field. -/
theorem claim_C10_frame_effect (m : MathOracle) (p : Particle) (tips : List Point)
    (theme : VisualTheme) (width height scaleFactor time deltaTime : ℚ) (r : FrameRand) :
    (updateParticle m p tips theme width height scaleFactor time deltaTime r).size
        = p.size ∧
    (updateParticle m p tips theme width height scaleFactor time deltaTime r).maxLife
        = p.maxLife ∧
    (updateParticle m p tips theme width height scaleFactor time deltaTime r).type
        = p.type ∧
    (updateParticle m p tips theme width height scaleFactor time deltaTime r).color
        = p.color ∧
    ∀ c : String, baseColor { p with color := c } theme = baseColor p theme := by
  refine ⟨?_, ?_, ?_, ?_, fun c => rfl⟩
  · exact respawnStage_size p tips width height scaleFactor deltaTime r
  · exact respawnStage_maxLife p tips width height scaleFactor deltaTime r
  · exact respawnStage_type p tips width height scaleFactor deltaTime r
  · exact respawnStage_color p tips width height scaleFactor deltaTime r

/-- The first component of the nearest-tip fold is the running minimum of
the tip distances, whatever the initial pair. -/
theorem scan_foldl_fst (m : MathOracle) (p : Particle) (tips : List Point) :
    ∀ (a : ℚ) (pt : Point),
      (tips.foldl (scanStep m p) (a, pt)).1
        = (tips.map fun t => hypot m (t.x - p.x) (t.y - p.y)).foldl min a := by
  induction tips with
  | nil =>
    intro a pt
    rfl
  | cons t ts ih =>
    intro a pt
    rw [List.foldl_cons, List.map_cons, List.foldl_cons]
    by_cases h : hypot m (t.x - p.x) (t.y - p.y) < a
    · have hs : scanStep m p (a, pt) t = (hypot m (t.x - p.x) (t.y - p.y), t) := by
        simp only [scanStep]
        rw [if_pos h]
      rw [hs, ih, min_eq_right (le_of_lt h)]
    · have hs : scanStep m p (a, pt) t = (a, pt) := by
        simp only [scanStep]
        rw [if_neg h]
      rw [hs, ih, min_eq_left (not_lt.mp h)]

/-- The scan reports the Euclidean nearest-tip distance capped at the
sentinel 99999. -/
theorem cappedNearestDist_eq (m : MathOracle) (p : Particle) (tips : List Point) :
    cappedNearestDist m p tips
      = (tips.map fun t => hypot m (t.x - p.x) (t.y - p.y)).foldl min 99999 :=
  scan_foldl_fst m p tips 99999 (tips.headD ⟨0, 0⟩)

/-- C4 counterexample: with one tip at (400000, 0), a STRUCTURE particle at
the origin in VOID mode and scaleFactor 1000 (interactionRadius 300000), the
true Euclidean distance is 400000 ≥ 300000, so the claim demands zero net
force; but the scan's sentinel initialization caps the measured distance:
400000 is not below the initial 99999, so closestDist stays 99999 < 300000
and a nonzero VOID attraction is applied.  The oracle returns the exact real
square root at the only argument it is evaluated at:
sqrt(160000000000) = 400000. -/
theorem claim_C4_counterexample :
    computeForce farOracle ⟨0, 0, 0, 0, 1, "", 100, 100, ParticleType.STRUCTURE⟩
        [⟨400000, 0⟩] voidTheme 1000 0 randHalf = (533336 / 25, 0) ∧
    (533336 / 25 : ℚ) ≠ 0 := by
  constructor
  · norm_num [computeForce, nearestScan, scanStep, hypot, farOracle, voidTheme, forceFactor,
      show ("VOID" : String) ≠ "WEAVE" from by decide,
      show ("VOID" : String) ≠ "CRYSTALLIZE" from by decide,
      show ("VOID" : String) ≠ "FRAGMENT" from by decide]
  · norm_num

/-- C4 amended: for a nonempty target set, the distance the code works with
is the Euclidean distance to the nearest target capped at the scan sentinel
99999; below the interaction radius 300 × scaleFactor the force scaling
factor equals max(0, 1 - dist/interactionRadius) for that capped distance,
and at or beyond the radius the net force applied for the step is zero. -/
theorem claim_C4_force_gate (m : MathOracle) (p : Particle) (tips : List Point)
    (theme : VisualTheme) (scaleFactor time : ℚ) (r : FrameRand)
    (hne : 0 < tips.length) (hsf : 0 < scaleFactor) :
    cappedNearestDist m p tips
      = (tips.map fun t => hypot m (t.x - p.x) (t.y - p.y)).foldl min 99999 ∧
    (cappedNearestDist m p tips < 300 * scaleFactor →
      forceFactor (cappedNearestDist m p tips) (300 * scaleFactor)
        = max 0 (1 - cappedNearestDist m p tips / (300 * scaleFactor))) ∧
    (300 * scaleFactor ≤ cappedNearestDist m p tips →
      computeForce m p tips theme scaleFactor time r = (0, 0)) := by
  refine ⟨cappedNearestDist_eq m p tips, ?_, ?_⟩
  · intro hlt
    have hr : (0 : ℚ) < 300 * scaleFactor := by positivity
    have hnum : 0 ≤ 1 - cappedNearestDist m p tips / (300 * scaleFactor) := by
      have := (div_lt_one hr).mpr hlt
      linarith
    rw [forceFactor, max_eq_right hnum]
  · intro hge
    have hge2 : ¬ (nearestScan m p tips).1 < 300 * scaleFactor := not_lt.mpr hge
    simp only [computeForce]
    rw [if_pos hne, if_neg hge2]

/-- Witness for the amended C4: a tip farther than the sentinel leaves the
capped distance at 99999, and at scaleFactor 1 (radius 300 ≤ 99999) the net
force is zero. -/
theorem claim_C4_force_gate_witness :
    computeForce farOracle ⟨0, 0, 0, 0, 1, "", 100, 100, ParticleType.STRUCTURE⟩
        [⟨400000, 0⟩] voidTheme 1 0 randHalf = (0, 0) :=
  (claim_C4_force_gate farOracle ⟨0, 0, 0, 0, 1, "", 100, 100, ParticleType.STRUCTURE⟩
      [⟨400000, 0⟩] voidTheme 1 0 randHalf (by norm_num) (by norm_num)).2.2
    (by norm_num [cappedNearestDist, nearestScan, scanStep, hypot, farOracle])

/-- C5: for every theme mode that is none of WEAVE, CRYSTALLIZE, FRAGMENT
and VOID — including every unrecognized string — a STRUCTURE particle gets
exactly the same behavior as under RESONANCE, and inside the interaction
radius that behavior is the time-driven sinusoid phase-offset by the
particle's own coordinates, whose expression does not involve the target
position. -/
theorem claim_C5_mode_fallback (m : MathOracle) (p : Particle) (tips : List Point)
    (theme : VisualTheme) (scaleFactor time : ℚ) (r : FrameRand)
    (hstruct : p.type = ParticleType.STRUCTURE)
    (hW : theme.mode ≠ "WEAVE") (hC : theme.mode ≠ "CRYSTALLIZE")
    (hF : theme.mode ≠ "FRAGMENT") (hV : theme.mode ≠ "VOID") :
    computeForce m p tips theme scaleFactor time r
      = computeForce m p tips { theme with mode := "RESONANCE" } scaleFactor time r ∧
    (0 < tips.length → cappedNearestDist m p tips < 300 * scaleFactor →
      computeForce m p tips theme scaleFactor time r
        = (m.sin (time * (1 / 100) + p.y * (1 / 10)) * (1 / 2) * scaleFactor,
           m.cos (time * (1 / 100) + p.x * (1 / 10)) * (1 / 2) * scaleFactor)) := by
  have hmR : ({ theme with mode := "RESONANCE" } : VisualTheme).mode = "RESONANCE" := rfl
  have hRW : ¬ ("RESONANCE" : String) = "WEAVE" := by decide
  have hRC : ¬ ("RESONANCE" : String) = "CRYSTALLIZE" := by decide
  have hRF : ¬ ("RESONANCE" : String) = "FRAGMENT" := by decide
  have hRV : ¬ ("RESONANCE" : String) = "VOID" := by decide
  constructor
  · simp only [computeForce, hmR]
    by_cases h1 : 0 < tips.length
    · rw [if_pos h1, if_pos h1]
      by_cases h2 : (nearestScan m p tips).1 < 300 * scaleFactor
      · rw [if_pos h2, if_pos hstruct, if_neg hW, if_neg hC, if_neg hF, if_neg hV,
          if_pos h2, if_pos hstruct, if_neg hRW, if_neg hRC, if_neg hRF, if_neg hRV]
      · rw [if_neg h2, if_neg h2]
    · rw [if_neg h1, if_neg h1]
  · intro h1 h2
    have h2a : (nearestScan m p tips).1 < 300 * scaleFactor := h2
    simp only [computeForce]
    rw [if_pos h1, if_pos h2a, if_pos hstruct, if_neg hW, if_neg hC, if_neg hF, if_neg hV]

/-- Witness for C5 at the unrecognized mode GLITCH, with one tip at
distance 3 (the oracle returns the exact real sqrt 9 = 3). -/
theorem claim_C5_mode_fallback_witness :
    computeForce resonOracle ⟨0, 0, 0, 0, 1, "", 100, 100, ParticleType.STRUCTURE⟩
        [⟨3, 0⟩] glitchTheme 1 0 randHalf
      = computeForce resonOracle ⟨0, 0, 0, 0, 1, "", 100, 100, ParticleType.STRUCTURE⟩
        [⟨3, 0⟩] { glitchTheme with mode := "RESONANCE" } 1 0 randHalf ∧
    computeForce resonOracle ⟨0, 0, 0, 0, 1, "", 100, 100, ParticleType.STRUCTURE⟩
        [⟨3, 0⟩] glitchTheme 1 0 randHalf = (7 / 2, 11 / 2) := by
  have h := claim_C5_mode_fallback resonOracle
    ⟨0, 0, 0, 0, 1, "", 100, 100, ParticleType.STRUCTURE⟩ [⟨3, 0⟩] glitchTheme 1 0 randHalf
    rfl (by decide) (by decide) (by decide) (by decide)
  refine ⟨h.1, (h.2 (by norm_num)
    (by norm_num [cappedNearestDist, nearestScan, scanStep, hypot, resonOracle])).trans ?_⟩
  norm_num [resonOracle]

/-- C6: with at least one hand present, no request is issued while less
than 4000 ms have elapsed since the last theme update, and once the elapsed
time exceeds 4000 ms the single per-frame gate issues the request and resets
the cooldown timer to the issue time immediately (the timer value returned
does not depend on any response). -/
theorem claim_C6_theme_cooldown (handCount : ℕ) (time lastUpdate : ℚ) :
    (0 < handCount → time - lastUpdate < 4000 →
      themeGate handCount time lastUpdate = (false, lastUpdate)) ∧
    (0 < handCount → 4000 < time - lastUpdate →
      themeGate handCount time lastUpdate = (true, time)) := by
  constructor
  · intro _ h
    simp only [themeGate]
    rw [if_neg]
    rintro ⟨-, h2⟩
    linarith
  · intro hc h
    simp only [themeGate]
    rw [if_pos ⟨hc, h⟩]

/-- Witness for C6: within the window nothing is issued, past it the
request fires and the timer becomes the issue time. -/
theorem claim_C6_theme_cooldown_witness :
    themeGate 1 3000 0 = (false, 0) ∧ themeGate 1 5000 0 = (true, 5000) :=
  ⟨(claim_C6_theme_cooldown 1 3000 0).1 (by norm_num) (by norm_num),
   (claim_C6_theme_cooldown 1 5000 0).2 (by norm_num) (by norm_num)⟩

/-- C7 counterexample: a malformed response is not always treated as a
failure that preserves the theme.  The response text is the two characters
open-brace close-brace, valid JSON that parses to the empty object — a
response missing every required schema field, hence malformed per the
claim's failure taxonomy.  JSON.parse succeeds, the unvalidated cast
returns it, the empty object is truthy, and setTheme replaces the previous
default theme with it: the pre-request theme is NOT left unchanged. -/
theorem claim_C7_counterexample :
    applyThemeResponse defaultThemeJs
        (generateThemeFromGesture (ApiResponse.parsedText (JsValue.objV [])))
      = JsValue.objV [] ∧
    JsValue.objV [] ≠ defaultThemeJs := by
  constructor
  · rfl
  · intro h
    simp [defaultThemeJs] at h

/-- C7 amended: a theme request failure that yields the null result — the
call threw (network error), the response carried no text, or the text was
not parseable JSON — leaves the pre-request theme unchanged (and the
embedding of the handler is total: nothing escapes the frame loop); and
since the cooldown timer was already advanced to the issue time, no frame
within the following 4000 ms issues a retry.  A malformed response that
JSON.parse does accept is outside this failure set: if truthy it replaces
the theme unvalidated (see the counterexample). -/
theorem claim_C7_failed_request (current : JsValue) (resp : ApiResponse)
    (hfail : resp = ApiResponse.networkError ∨ resp = ApiResponse.noText ∨
      resp = ApiResponse.unparseableText)
    (handCount : ℕ) (issueTime t : ℚ) (hwithin : t - issueTime ≤ 4000) :
    applyThemeResponse current (generateThemeFromGesture resp) = current ∧
    (themeGate handCount t issueTime).1 = false := by
  constructor
  · rcases hfail with h | h | h <;> rw [h] <;> rfl
  · simp only [themeGate]
    rw [if_neg (show ¬ (0 < handCount ∧ 4000 < t - issueTime) from by
      rintro ⟨-, h2⟩
      linarith)]

/-- Witness for the amended C7: a network error leaves the default theme in
place and the very next window-boundary frame does not retry. -/
theorem claim_C7_failed_request_witness :
    applyThemeResponse defaultThemeJs (generateThemeFromGesture ApiResponse.networkError)
      = defaultThemeJs ∧
    (themeGate 1 4000 0).1 = false :=
  claim_C7_failed_request defaultThemeJs ApiResponse.networkError (Or.inl rfl)
    1 0 4000 (by norm_num)

/-- C8 counterexample: malformed color strings do not fall back to any safe
default color — the channels that fail to parse come out as NaN (modelled
as none), and two different malformed inputs even yield two different
results (the empty string gives three NaN channels; for the string bad the
slice from index 1 to 3 is ad, which parses as hex 173, while the other two
slices are empty and give NaN).  The fillStyle string the code builds from
these values, rgba(NaN, NaN, NaN, a), names no color at all. -/
theorem claim_C8_counterexample :
    (hexToRgba "" (1 / 2)).r = none ∧ (hexToRgba "" (1 / 2)).g = none ∧
    (hexToRgba "" (1 / 2)).b = none ∧
    (hexToRgba "bad" (1 / 2)).r = some 173 ∧ (hexToRgba "bad" (1 / 2)).g = none ∧
    (hexToRgba "bad" (1 / 2)).b = none :=
  ⟨rfl, rfl, rfl, rfl, rfl, rfl⟩

/-- C8 amended: hexToRgba on the 6-digit hex string #D4AF37 yields exactly
the channels (212, 175, 55) with the alpha passed through, via two-hex-digit
slice extraction; the function is total on every string (parseInt and slice
never throw, so no parse failure can abort a frame), but a malformed string
yields NaN channels rather than any default color. -/
theorem claim_C8_hexToRgba (alpha : ℚ) (s : String) :
    hexToRgba "#D4AF37" alpha = ⟨some 212, some 175, some 55, alpha⟩ ∧
    hexToRgba s alpha
      = ⟨jsParseIntHex (jsSlice s 1 3), jsParseIntHex (jsSlice s 3 5),
         jsParseIntHex (jsSlice s 5 7), alpha⟩ :=
  ⟨rfl, rfl⟩

end Visualizer
